import Mathlib

/-!
Verification development for the posix named-semaphore lock of
ecl_ipc (semaphore_pos.hpp). The header under scrutiny only declares the
Semaphore class; the behaviour of its operations is modelled from the
repository specification of the NamedLock component, with the exception
specifications taken directly from the header text.
-/

namespace EclIpc

/-- The kernel's table of named posix semaphore objects: an association list
from the system-visible name to the current counter value. Instances in any
process refer to these shared objects purely by name. -/
abbrev KernelState := List (String × Nat)

/-- Current value of the named kernel semaphore object, if it exists. -/
def lookupSem : KernelState → String → Option Nat
  | [], _ => none
  | (n, v) :: rest, nm => if n = nm then some v else lookupSem rest nm

/-- Set the value of the named kernel semaphore object, creating the object
if it is absent. -/
def updateSem : KernelState → String → Nat → KernelState
  | [], nm, v => [(nm, v)]
  | (n, w) :: rest, nm, v =>
    if n = nm then (nm, v) :: rest else (n, w) :: updateSem rest nm v

/-- The component's two error kinds, each carrying the originating OS error
code and a call-site location tag. -/
inductive SemError
  | initializationError (errno : Nat) (loc : String)
  | lockAttemptError (errno : Nat) (loc : String)
  deriving DecidableEq, Repr

/-- A Semaphore instance: after construction it holds the derived
system-visible name of the kernel object it is attached to. -/
structure Semaphore where
  name : String
  deriving DecidableEq, Repr

/-- Modelled from the spec: the string constructor, whose sem_open body is not
part of the header. It derives the system-visible name by prepending one
separator character to the identifier, creates the kernel object with initial
value 1 when absent, and attaches without resetting the value when present.
An empty identifier, or any OS-level failure of the underlying open call
(injected through the fault argument, none meaning the call succeeds), yields
an InitializationError carrying the error code and the call site; no instance
is produced in that case. -/
def construct (k : KernelState) (string_id : String) (fault : Option Nat) :
    Except SemError (KernelState × Semaphore) :=
  if string_id.isEmpty then
    Except.error (SemError.initializationError 22 "Semaphore::Semaphore")
  else
    match fault with
    | some e => Except.error (SemError.initializationError e "Semaphore::Semaphore")
    | none =>
      match lookupSem k ("/" ++ string_id) with
      | some _ => Except.ok (k, ⟨"/" ++ string_id⟩)
      | none => Except.ok (updateSem k ("/" ++ string_id) 1, ⟨"/" ++ string_id⟩)

/-- Modelled from the spec: the default constructor always fails, so no usable
unnamed lock can ever exist. -/
def defaultConstruct : Except SemError Semaphore :=
  Except.error (SemError.initializationError 22 "Semaphore::Semaphore()")

/-- Modelled from the spec: the completing wait of lock() (sem_wait). It
returns the kernel state after the decrement when the value is positive, and
none when the caller stays blocked (value 0) or the object is absent. -/
def lockStep (k : KernelState) (s : Semaphore) : Option KernelState :=
  match lookupSem k s.name with
  | some (v + 1) => some (updateSem k s.name v)
  | _ => none

/-- Modelled from the spec: lock() in the presence of signal interruptions.
Each list entry records whether the OS wait is interrupted before the
semaphore is acquired; on interruption the component retries internally
instead of returning to the caller. -/
def lockWithInterrupts (k : KernelState) (s : Semaphore) : List Bool → Option KernelState
  | [] => lockStep k s
  | intr :: rest => if intr then lockWithInterrupts k s rest else lockStep k s

/-- Modelled from the spec: unlock() (sem_post) increments the semaphore
value, releasing one waiter if any. -/
def unlockStep (k : KernelState) (s : Semaphore) : KernelState :=
  match lookupSem k s.name with
  | some v => updateSem k s.name (v + 1)
  | none => k

/-- Modelled from the spec: the immediate trylock() (sem_trywait). It
decrements and returns true when the value is positive; it returns false
exactly when the wait would block (value already 0); any other OS failure,
injected through the fault argument or caused by an invalid handle, raises a
LockAttemptError carrying the error code and the call site. -/
def trylock (k : KernelState) (s : Semaphore) (fault : Option Nat) :
    Except SemError (KernelState × Bool) :=
  match fault with
  | some e => Except.error (SemError.lockAttemptError e "Semaphore::trylock")
  | none =>
    match lookupSem k s.name with
    | some (v + 1) => Except.ok (updateSem k s.name v, true)
    | some 0 => Except.ok (k, false)
    | none => Except.error (SemError.lockAttemptError 22 "Semaphore::trylock")

/-- Outcome of the underlying bounded wait (sem_timedwait). -/
inductive TimedWaitOutcome
  | acquired
  | timedOut
  | osError (errno : Nat)
  deriving DecidableEq, Repr

/-- Decrement the named kernel semaphore when its value is positive. -/
def decKernel (k : KernelState) (nm : String) : KernelState :=
  match lookupSem k nm with
  | some (v + 1) => updateSem k nm v
  | _ => k

/-- Modelled from the spec: trylock(timeout). When the platform lacks a native
timed wait (hasTimedWait false), it behaves exactly as the immediate trylock()
for every timeout value; otherwise it returns true on acquisition, false on
timeout expiry, and raises a LockAttemptError for any non-timeout OS failure
reported by the bounded wait. -/
def trylockTimed (hasTimedWait : Bool) (k : KernelState) (s : Semaphore)
    (_timeout : Nat) (outcome : TimedWaitOutcome) (fault : Option Nat) :
    Except SemError (KernelState × Bool) :=
  if hasTimedWait then
    match outcome with
    | TimedWaitOutcome.acquired => Except.ok (decKernel k s.name, true)
    | TimedWaitOutcome.timedOut => Except.ok (k, false)
    | TimedWaitOutcome.osError e =>
      Except.error (SemError.lockAttemptError e "Semaphore::trylock(timeout)")
  else
    trylock k s fault

/-- Modelled from the spec: count() (sem_getvalue), the diagnostic accessor
returning the current integer value of the semaphore; it is pure and never
blocks. -/
def count (k : KernelState) (s : Semaphore) : Option Nat :=
  lookupSem k s.name

/-- The component's own locking operations, for reasoning about sequences. -/
inductive LockOp
  | lockCall
  | unlockCall
  | trylockCall
  deriving DecidableEq, Repr

/-- Run a sequence of the component's own operations on one instance; none
when a lock() in the sequence blocks or an operation faults. -/
def runOps (k : KernelState) (s : Semaphore) : List LockOp → Option KernelState
  | [] => some k
  | LockOp.lockCall :: rest =>
    match lockStep k s with
    | some k1 => runOps k1 s rest
    | none => none
  | LockOp.unlockCall :: rest => runOps (unlockStep k s) s rest
  | LockOp.trylockCall :: rest =>
    match trylock k s none with
    | Except.ok (k1, _) => runOps k1 s rest
    | Except.error _ => none

/-- A sequence respects the component's discipline when every unlock() matches
a prior acquisition, i.e. is issued while the value is 0: the increment is
never called more than once per matching decrement. -/
def properUse (k : KernelState) (s : Semaphore) : List LockOp → Bool
  | [] => true
  | LockOp.lockCall :: rest =>
    match lockStep k s with
    | some k1 => properUse k1 s rest
    | none => false
  | LockOp.unlockCall :: rest =>
    decide (lookupSem k s.name = some 0) && properUse (unlockStep k s) s rest
  | LockOp.trylockCall :: rest =>
    match trylock k s none with
    | Except.ok (k1, _) => properUse k1 s rest
    | Except.error _ => false

/-- N repetitions of a lock() then unlock() pair. -/
def lockUnlockPairs : Nat → List LockOp
  | 0 => []
  | n + 1 => LockOp.lockCall :: LockOp.unlockCall :: lockUnlockPairs n

/-- The diagnostic count observed after running a sequence of operations. -/
def countAfter (k : KernelState) (s : Semaphore) (ops : List LockOp) :
    Option (Option Nat) :=
  match runOps k s ops with
  | some k1 => some (count k1 s)
  | none => none

/-- The member functions of the Semaphore class declared in
semaphore_pos.hpp. -/
inductive SemOp
  | defaultCtor
  | stringCtor
  | lockFn
  | unlockFn
  | trylockFn
  | trylockTimedFn
  | countFn
  deriving DecidableEq, Repr

/-- The kind of exception specification a declaration carries in the
header. -/
inductive ThrowDeclKind
  | unconditionalThrow
  | assertThrowDecl
  | debugThrowDecl
  | noDecl
  deriving DecidableEq, Repr

/-- Exception specifications exactly as written in semaphore_pos.hpp: the
default constructor carries a plain throw(StandardException); the string
constructor carries ecl_assert_throw_decl(StandardException);
trylock(timeout) carries ecl_debug_throw_decl(StandardException); lock(),
unlock(), trylock() and count() carry none. -/
def declKind : SemOp → ThrowDeclKind
  | SemOp.defaultCtor => ThrowDeclKind.unconditionalThrow
  | SemOp.stringCtor => ThrowDeclKind.assertThrowDecl
  | SemOp.trylockTimedFn => ThrowDeclKind.debugThrowDecl
  | _ => ThrowDeclKind.noDecl

/-- Build configuration: whether ECL_HAS_EXCEPTIONS is defined and whether
debug assertions are enabled. -/
structure BuildFlags where
  hasExceptions : Bool
  debugAssertions : Bool
  deriving DecidableEq, Repr

/-- Modelled from the spec: the expansion of the ecl throw-declaration macros,
whose definitions live outside the analysed header. The assert and debug
variants expand to an exception specification only when exceptions and debug
assertions are both enabled; a plain specification is unconditional. -/
def declaresThrow (f : BuildFlags) (op : SemOp) : Bool :=
  match declKind op with
  | ThrowDeclKind.unconditionalThrow => true
  | ThrowDeclKind.assertThrowDecl => f.hasExceptions && f.debugAssertions
  | ThrowDeclKind.debugThrowDecl => f.hasExceptions && f.debugAssertions
  | ThrowDeclKind.noDecl => false

/-- Scenario abbreviation: the kernel state after a fresh creation of the
named object with initial value 1. -/
def afterCreate (k : KernelState) (string_id : String) : KernelState :=
  updateSem k ("/" ++ string_id) 1

/-- Scenario abbreviation: the kernel state after the creator locks the
freshly created object. -/
def afterLock (k : KernelState) (string_id : String) : KernelState :=
  updateSem (afterCreate k string_id) ("/" ++ string_id) 0

/-- Scenario abbreviation: the kernel state after the holder unlocks
again. -/
def afterUnlock (k : KernelState) (string_id : String) : KernelState :=
  unlockStep (afterLock k string_id) ⟨"/" ++ string_id⟩

theorem lookupSem_updateSem_self (k : KernelState) (nm : String) (v : Nat) :
    lookupSem (updateSem k nm v) nm = some v := by
  induction k with
  | nil => simp [updateSem, lookupSem]
  | cons p rest ih =>
    obtain ⟨n, w⟩ := p
    by_cases h : n = nm
    · simp [updateSem, lookupSem, h]
    · simp [updateSem, lookupSem, h, ih]

theorem lookupSem_nil (nm : String) : lookupSem [] nm = none := rfl

/-- Claim C1: two Semaphore instances constructed with the same valid
identifier denote the same logical lock. Constructing twice with the same
fresh identifier yields instances attached to the same kernel object; after
the first instance acquires via lock(), the second instance's immediate
trylock() returns false; after the holder unlocks and no other contender
intervenes, the second instance's immediate trylock() returns true. -/
theorem same_identifier_same_lock (k : KernelState) (string_id : String)
    (hne : string_id.isEmpty = false)
    (hfresh : lookupSem k ("/" ++ string_id) = none) :
    construct k string_id none =
      Except.ok (afterCreate k string_id, Semaphore.mk ("/" ++ string_id)) ∧
    construct (afterCreate k string_id) string_id none =
      Except.ok (afterCreate k string_id, Semaphore.mk ("/" ++ string_id)) ∧
    lockStep (afterCreate k string_id) (Semaphore.mk ("/" ++ string_id)) =
      some (afterLock k string_id) ∧
    trylock (afterLock k string_id) (Semaphore.mk ("/" ++ string_id)) none =
      Except.ok (afterLock k string_id, false) ∧
    trylock (afterUnlock k string_id) (Semaphore.mk ("/" ++ string_id)) none =
      Except.ok (updateSem (afterUnlock k string_id) ("/" ++ string_id) 0, true) := by
  refine ⟨?_, ?_, ?_, ?_, ?_⟩
  · simp [construct, hne, hfresh, afterCreate]
  · simp [construct, hne, afterCreate, lookupSem_updateSem_self]
  · simp [lockStep, afterCreate, afterLock, lookupSem_updateSem_self]
  · simp [trylock, afterLock, lookupSem_updateSem_self]
  · simp [trylock, afterUnlock, unlockStep, afterLock, lookupSem_updateSem_self]

theorem same_identifier_same_lock_witness :
    construct [] "x" none =
      Except.ok (afterCreate [] "x", Semaphore.mk "/x") ∧
    construct (afterCreate [] "x") "x" none =
      Except.ok (afterCreate [] "x", Semaphore.mk "/x") ∧
    lockStep (afterCreate [] "x") (Semaphore.mk "/x") =
      some (afterLock [] "x") ∧
    trylock (afterLock [] "x") (Semaphore.mk "/x") none =
      Except.ok (afterLock [] "x", false) ∧
    trylock (afterUnlock [] "x") (Semaphore.mk "/x") none =
      Except.ok (updateSem (afterUnlock [] "x") "/x" 0, true) :=
  same_identifier_same_lock [] "x" (by decide) (by decide)

/-- Claim C2: the immediate trylock() never blocks (it is a single-step total
operation) and its boolean result false is reserved strictly for the
would-block case, the value already being 0; every OS-level failure during
the attempt raises a LockAttemptError carrying the error code and call site
instead of being reported as false. -/
theorem trylock_false_only_would_block (k : KernelState) (s : Semaphore)
    (fault : Option Nat) (v : Nat) (h : lookupSem k s.name = some v) :
    (∀ e, fault = some e →
      trylock k s fault =
        Except.error (SemError.lockAttemptError e "Semaphore::trylock")) ∧
    (fault = none → v = 0 → trylock k s fault = Except.ok (k, false)) ∧
    (∀ w, fault = none → v = w + 1 →
      trylock k s fault = Except.ok (updateSem k s.name w, true)) ∧
    (∀ k1, trylock k s fault = Except.ok (k1, false) →
      fault = none ∧ v = 0 ∧ k1 = k) := by
  refine ⟨?_, ?_, ?_, ?_⟩
  · rintro e rfl
    rfl
  · rintro rfl rfl
    simp [trylock, h]
  · rintro w rfl rfl
    simp [trylock, h]
  · intro k1 hk1
    rcases fault with _ | e
    · rcases v with _ | w
      · simp_all [trylock, h]
      · simp [trylock, h] at hk1
    · simp [trylock] at hk1

theorem trylock_false_only_would_block_witness :
    trylock [("/x", 0)] (Semaphore.mk "/x") none =
      Except.ok ([("/x", 0)], false) :=
  (trylock_false_only_would_block [("/x", 0)] (Semaphore.mk "/x") none 0
    (by decide)).2.1 rfl rfl

/-- Claim C3: whenever the underlying open call fails with an OS-level error
during construction with a valid identifier, the constructor raises an
InitializationError carrying the originating error code and the call site,
and no Semaphore instance is produced; a successful construction yields a
fully initialized instance whose stored name is registered in the kernel. -/
theorem construct_open_failure (k : KernelState) (string_id : String)
    (hne : string_id.isEmpty = false) :
    (∀ e, construct k string_id (some e) =
      Except.error (SemError.initializationError e "Semaphore::Semaphore")) ∧
    (∀ k1 s, construct k string_id none = Except.ok (k1, s) →
      s.name = "/" ++ string_id ∧ ∃ v, lookupSem k1 s.name = some v) := by
  constructor
  · intro e
    simp [construct, hne]
  · intro k1 s hs
    rcases hlook : lookupSem k ("/" ++ string_id) with _ | v
    · simp [construct, hne, hlook] at hs
      rcases hs with ⟨rfl, rfl⟩
      exact ⟨rfl, 1, lookupSem_updateSem_self k ("/" ++ string_id) 1⟩
    · simp [construct, hne, hlook] at hs
      rcases hs with ⟨rfl, rfl⟩
      exact ⟨rfl, v, hlook⟩

theorem construct_open_failure_witness :
    construct [] "x" (some 13) =
      Except.error (SemError.initializationError 13 "Semaphore::Semaphore") :=
  (construct_open_failure [] "x" (by decide)).1 13

/-- Claim C4: when the timed-wait capability is absent, trylock(timeout)
behaves exactly as the immediate trylock() for every timeout value; when it
is present, trylock(timeout) returns true on acquisition, returns false on
timeout expiry, and raises a LockAttemptError for any non-timeout OS
failure. -/
theorem trylock_timed_capability (k : KernelState) (s : Semaphore)
    (timeout : Nat) (fault : Option Nat) :
    (∀ outcome, trylockTimed false k s timeout outcome fault = trylock k s fault) ∧
    trylockTimed true k s timeout TimedWaitOutcome.acquired fault =
      Except.ok (decKernel k s.name, true) ∧
    trylockTimed true k s timeout TimedWaitOutcome.timedOut fault =
      Except.ok (k, false) ∧
    (∀ e, trylockTimed true k s timeout (TimedWaitOutcome.osError e) fault =
      Except.error (SemError.lockAttemptError e "Semaphore::trylock(timeout)")) :=
  ⟨fun _ => rfl, rfl, rfl, fun _ => rfl⟩

/-- Claim C5: constructing a Semaphore with no argument always fails, and
constructing with an empty identifier always fails with an
InitializationError; no usable unnamed lock can ever exist. -/
theorem unnamed_lock_impossible :
    (∃ e l, defaultConstruct = Except.error (SemError.initializationError e l)) ∧
    ∀ k fault, ∃ e l,
      construct k "" fault = Except.error (SemError.initializationError e l) := by
  refine ⟨⟨22, "Semaphore::Semaphore()", rfl⟩, ?_⟩
  intro k fault
  exact ⟨22, "Semaphore::Semaphore", rfl⟩

theorem lockUnlockPairs_count (s : Semaphore) (n : Nat) :
    ∀ k, count k s = some 1 → countAfter k s (lockUnlockPairs n) = some (some 1) := by
  induction n with
  | zero =>
    intro k h
    simp [lockUnlockPairs, countAfter, runOps, h]
  | succ n ih =>
    intro k h
    have hl : lookupSem k s.name = some 1 := h
    have h0 : lookupSem (updateSem k s.name 0) s.name = some 0 :=
      lookupSem_updateSem_self k s.name 0
    have h1 : count (updateSem (updateSem k s.name 0) s.name 1) s = some 1 :=
      lookupSem_updateSem_self (updateSem k s.name 0) s.name 1
    have step : countAfter k s (lockUnlockPairs (n + 1)) =
        countAfter (updateSem (updateSem k s.name 0) s.name 1) s (lockUnlockPairs n) := by
      simp [countAfter, lockUnlockPairs, runOps, lockStep, hl, unlockStep, h0]
    rw [step]
    exact ih _ h1

theorem runOps_value_le_one (s : Semaphore) (ops : List LockOp) :
    ∀ k v, lookupSem k s.name = some v → v ≤ 1 → properUse k s ops = true →
      ∀ k1 v1, runOps k s ops = some k1 → lookupSem k1 s.name = some v1 → v1 ≤ 1 := by
  induction ops with
  | nil =>
    intro k v hv hle _ k1 v1 hrun hv1
    simp [runOps] at hrun
    subst hrun
    rw [hv] at hv1
    cases hv1
    exact hle
  | cons op rest ih =>
    intro k v hv hle hproper k1 v1 hrun hv1
    cases op with
    | lockCall =>
      rcases v with _ | w
      · simp [runOps, lockStep, hv] at hrun
      · have hw : w = 0 := by omega
        subst hw
        have hls : lockStep k s = some (updateSem k s.name 0) := by
          simp [lockStep, hv]
        simp [runOps, hls] at hrun
        simp [properUse, hls] at hproper
        exact ih (updateSem k s.name 0) 0
          (lookupSem_updateSem_self k s.name 0) (by omega) hproper k1 v1 hrun hv1
    | unlockCall =>
      simp [properUse] at hproper
      obtain ⟨hz, hproper⟩ := hproper
      have hus : unlockStep k s = updateSem k s.name 1 := by
        simp [unlockStep, hz]
      simp [runOps, hus] at hrun
      rw [hus] at hproper
      exact ih (updateSem k s.name 1) 1
        (lookupSem_updateSem_self k s.name 1) (le_refl 1) hproper k1 v1 hrun hv1
    | trylockCall =>
      rcases v with _ | w
      · have ht : trylock k s none = Except.ok (k, false) := by
          simp [trylock, hv]
        simp [runOps, ht] at hrun
        simp [properUse, ht] at hproper
        exact ih k 0 hv (by omega) hproper k1 v1 hrun hv1
      · have hw : w = 0 := by omega
        subst hw
        have ht : trylock k s none = Except.ok (updateSem k s.name 0, true) := by
          simp [trylock, hv]
        simp [runOps, ht] at hrun
        simp [properUse, ht] at hproper
        exact ih (updateSem k s.name 0) 0
          (lookupSem_updateSem_self k s.name 0) (by omega) hproper k1 v1 hrun hv1

/-- Claim C6: starting from a freshly created semaphore with value 1,
performing N lock()/unlock() pairs leaves count() equal to 1, and the
logical value never leaves the set of 0 and 1 under any properly matched
sequence of the component's own lock/unlock/trylock operations. -/
theorem binary_lock_roundtrip (s : Semaphore) (k : KernelState) (n : Nat)
    (ops : List LockOp) (hfresh : count k s = some 1)
    (hproper : properUse k s ops = true) :
    countAfter k s (lockUnlockPairs n) = some (some 1) ∧
    ∀ k1 v1, runOps k s ops = some k1 → lookupSem k1 s.name = some v1 → v1 ≤ 1 := by
  constructor
  · exact lockUnlockPairs_count s n k hfresh
  · exact runOps_value_le_one s ops k 1 hfresh (le_refl 1) hproper

theorem binary_lock_roundtrip_witness :
    countAfter [("/x", 1)] (Semaphore.mk "/x") (lockUnlockPairs 2) = some (some 1) :=
  (binary_lock_roundtrip (Semaphore.mk "/x") [("/x", 1)] 2
    [LockOp.trylockCall, LockOp.unlockCall] (by decide) (by decide)).1

theorem data_of_separator_append : ∀ t : String, ("/" ++ t).data = '/' :: t.data :=
  fun ⟨_⟩ => rfl

/-- Claim C7: construction with an identifier deterministically derives the
OS-visible semaphore name by prepending exactly one separator character to
the identifier, and the constructed instance stores exactly that name. -/
theorem derived_name_single_separator (k : KernelState) (string_id : String)
    (fault : Option Nat) (k1 : KernelState) (s : Semaphore)
    (h : construct k string_id fault = Except.ok (k1, s)) :
    s.name = "/" ++ string_id ∧ s.name.data = '/' :: string_id.data := by
  have hname : s.name = "/" ++ string_id := by
    cases he : string_id.isEmpty with
    | true => simp [construct, he] at h
    | false =>
      rcases fault with _ | e
      · rcases hlook : lookupSem k ("/" ++ string_id) with _ | v
        · simp [construct, he, hlook] at h
          rw [← h.2]
        · simp [construct, he, hlook] at h
          rw [← h.2]
      · simp [construct, he] at h
  exact ⟨hname, by rw [hname]; exact data_of_separator_append string_id⟩

theorem derived_name_single_separator_witness :
    Semaphore.name (Semaphore.mk "/x") = "/" ++ "x" ∧
    (Semaphore.name (Semaphore.mk "/x")).data = '/' :: "x".data :=
  derived_name_single_separator [] "x" none [("/x", 1)] (Semaphore.mk "/x") rfl

/-- Claim C8: lock() never returns to the caller without having acquired the
lock: signal interruptions are retried internally and do not change the
outcome, a completed lock() has decremented the value from v+1 to v, and at
value 0 lock() does not return (the caller stays blocked). -/
theorem lock_only_returns_acquired (k : KernelState) (s : Semaphore)
    (intrs : List Bool) :
    lockWithInterrupts k s intrs = lockStep k s ∧
    (∀ k1, lockStep k s = some k1 →
      ∃ v, lookupSem k s.name = some (v + 1) ∧ lookupSem k1 s.name = some v) ∧
    (lookupSem k s.name = some 0 → lockStep k s = none) := by
  refine ⟨?_, ?_, ?_⟩
  · induction intrs with
    | nil => rfl
    | cons intr rest ih => cases intr <;> simp [lockWithInterrupts, ih]
  · intro k1 h1
    rcases hv : lookupSem k s.name with _ | v
    · simp [lockStep, hv] at h1
    · rcases v with _ | w
      · simp [lockStep, hv] at h1
      · refine ⟨w, rfl, ?_⟩
        simp [lockStep, hv] at h1
        rw [← h1]
        exact lookupSem_updateSem_self k s.name w
  · intro h0
    simp [lockStep, h0]

theorem lock_only_returns_acquired_witness :
    lockStep [("/x", 0)] (Semaphore.mk "/x") = none :=
  (lock_only_returns_acquired [("/x", 0)] (Semaphore.mk "/x") [true, false]).2.2
    (by decide)

/-- Claim C9: count() returns the current integer value of the underlying
semaphore and never blocks (it is a pure lookup): it reports the value before
and after the lock transitions, lock() taking v+1 to v and unlock() taking v
to v+1. -/
theorem count_reports_value (k : KernelState) (s : Semaphore) (v : Nat)
    (h : lookupSem k s.name = some v) :
    count k s = some v ∧
    (∀ w, v = w + 1 → lockStep k s = some (updateSem k s.name w) ∧
      count (updateSem k s.name w) s = some w) ∧
    count (unlockStep k s) s = some (v + 1) := by
  refine ⟨h, ?_, ?_⟩
  · rintro w rfl
    exact ⟨by simp [lockStep, h], lookupSem_updateSem_self k s.name w⟩
  · simp [unlockStep, h, count, lookupSem_updateSem_self]

theorem count_reports_value_witness :
    count (unlockStep [("/x", 1)] (Semaphore.mk "/x")) (Semaphore.mk "/x") = some 2 :=
  (count_reports_value [("/x", 1)] (Semaphore.mk "/x") 1 (by decide)).2.2

/-- Claim C10: in any build where exceptions are disabled or debug assertions
are off, the zero-argument constructor is the sole declared throw site: the
string constructor carries its exception specification only through the
debug-only assert macro, the timed trylock only through the debug-only macro,
and lock(), unlock() and the immediate trylock() carry none in any build. -/
theorem default_ctor_sole_declared_throw (f : BuildFlags)
    (h : f.hasExceptions = false ∨ f.debugAssertions = false) :
    (∀ op, declaresThrow f op = true ↔ op = SemOp.defaultCtor) ∧
    declKind SemOp.stringCtor = ThrowDeclKind.assertThrowDecl ∧
    declKind SemOp.trylockTimedFn = ThrowDeclKind.debugThrowDecl ∧
    declKind SemOp.lockFn = ThrowDeclKind.noDecl ∧
    declKind SemOp.unlockFn = ThrowDeclKind.noDecl ∧
    declKind SemOp.trylockFn = ThrowDeclKind.noDecl := by
  refine ⟨?_, rfl, rfl, rfl, rfl, rfl⟩
  intro op
  rcases h with h | h <;> cases op <;> simp [declaresThrow, declKind, h]

theorem default_ctor_sole_declared_throw_witness :
    declaresThrow (BuildFlags.mk false true) SemOp.defaultCtor = true :=
  ((default_ctor_sole_declared_throw (BuildFlags.mk false true) (Or.inl rfl)).1
    SemOp.defaultCtor).2 rfl

end EclIpc
